import Mathlib

/-!
Shallow embedding of the EMS manager dashboard (src/manager.py) and proofs
about its data-loading, normalization, fetch and maintenance operations.

External libraries (the SQLite engine, the JSON parser, pandas' datetime
parser, the HTTP client, base64) are modelled by explicit parameters or by
small Lean functions that reproduce the behaviour the Python code relies on,
as documented on each definition.  Python exceptions are modelled with
`Except`: an `.error` value is an exception propagating to the caller, an
`.ok` value is a normal return.
-/

namespace EMSManager

/-- Scalar JSON values as stored in the `data` column.  The dashboard only
ever reads scalar fields out of the decoded object, so JSON values are
modelled to that depth. -/
inductive JVal where
  | null
  | bool (b : Bool)
  | num (q : ℚ)
  | str (s : String)
deriving DecidableEq, Repr

/-- Result of a successful `json.loads(data)` call: either a dict (modelled
as an association list, later duplicate keys win as in Python) or some
non-dict value, on which `.get` raises `AttributeError`. -/
inductive PyObj where
  | dict (kvs : List (String × JVal))
  | other
deriving DecidableEq, Repr

/-- Python `obj.get(k)` on a JSON-decoded dict: returns the value bound to
`k` (last binding wins, as in `json.loads`), and `None` both when the key is
absent and when it is bound to JSON `null` (Python maps JSON null to None). -/
def pyGet (kvs : List (String × JVal)) (k : String) : Option JVal :=
  match kvs.reverse.lookup k with
  | some JVal.null => none
  | some v => some v
  | none => none

/-- Python exceptions that the modelled code can raise. -/
inductive PyErr where
  | requestError   -- requests.get raised (connection error, timeout, ...)
  | jsonError      -- json parsing raised
  | attributeError -- .get on a non-dict object
deriving DecidableEq, Repr

instance {ε α : Type} [DecidableEq ε] [DecidableEq α] : DecidableEq (Except ε α) := fun x y =>
  match x, y with
  | Except.ok a, Except.ok b =>
    if h : a = b then isTrue (by rw [h]) else isFalse (fun he => h (Except.ok.inj he))
  | Except.ok _, Except.error _ => isFalse (fun he => Except.noConfusion he)
  | Except.error _, Except.ok _ => isFalse (fun he => Except.noConfusion he)
  | Except.error a, Except.error b =>
    if h : a = b then isTrue (by rw [h]) else isFalse (fun he => h (Except.error.inj he))

/-- ASCII lowercase of a string (models SQLite's case-insensitive
identifier and LIKE comparison, which is ASCII-only). -/
def lowerStr (s : String) : String := String.mk (s.data.map Char.toLower)

/-- Case-insensitive string equality (ASCII). -/
def eqCI (a b : String) : Bool := lowerStr a == lowerStr b

/-- Does the column list contain a column with this name?  SQLite resolves
column names case-insensitively. -/
def hasColCI (cols : List String) (name : String) : Bool :=
  cols.any (fun c => eqCI c name)

/-- SQLite `x LIKE pat || '%'` for a pattern with no other wildcards:
case-insensitive (ASCII) prefix match, as used for the date filter. -/
def likeMatch (pat s : String) : Bool :=
  (lowerStr pat).data.isPrefixOf (lowerStr s).data

/-- One row of the `records` table.  The schema this repository itself
creates (see `clear_history_columns`) is
`id INTEGER PRIMARY KEY AUTOINCREMENT, ts TEXT NOT NULL, data TEXT NOT NULL`,
so rows are modelled with an integer id and string ts/data. -/
structure Row where
  id : Int
  ts : String
  data : String
deriving DecidableEq, Repr

/-- The single user table of a database file: its name, its declared column
names, and its rows. -/
structure TableDef where
  name : String
  cols : List String
  rows : List Row
deriving DecidableEq, Repr

/-- An opened SQLite database: at most one user table.  (The dashboard only
ever queries the table named `records`.) -/
structure Db where
  table : Option TableDef
deriving DecidableEq, Repr

/-- Lexicographic comparison of character lists by codepoint: models
SQLite's BINARY text collation (memcmp on UTF-8 bytes, which orders
strings exactly by codepoint). -/
def charListLe : List Char → List Char → Bool
  | [], _ => true
  | _ :: _, [] => false
  | a :: as, b :: bs =>
    if a.toNat < b.toNat then true
    else if b.toNat < a.toNat then false
    else charListLe as bs

/-- Totality of `charListLe`, packaged for the sorting lemmas. -/
instance : IsTotal (List Char) (fun as bs => charListLe as bs = true) := by
  constructor
  intro as
  induction as with
  | nil => intro bs; left; rfl
  | cons a as ih =>
    intro bs
    cases bs with
    | nil => right; rfl
    | cons b bs =>
      by_cases h₁ : a.toNat < b.toNat
      · left; simp [charListLe, h₁]
      · by_cases h₂ : b.toNat < a.toNat
        · right; simp [charListLe, h₂]
        · rcases ih bs with h | h
          · left; simpa [charListLe, h₁, h₂] using h
          · right; simpa [charListLe, h₁, h₂] using h

/-- Transitivity of `charListLe`, packaged for the sorting lemmas. -/
instance : IsTrans (List Char) (fun as bs => charListLe as bs = true) := by
  constructor
  intro as
  induction as with
  | nil => intro bs cs _ _; rfl
  | cons a as ih =>
    intro bs cs hab hbc
    cases bs with
    | nil => simp [charListLe] at hab
    | cons b bs =>
      cases cs with
      | nil => simp [charListLe] at hbc
      | cons c cs =>
        simp only [charListLe] at hab hbc ⊢
        by_cases hab1 : a.toNat < b.toNat
        · by_cases hbc1 : b.toNat < c.toNat
          · have : a.toNat < c.toNat := lt_trans hab1 hbc1
            simp [this]
          · by_cases hbc2 : c.toNat < b.toNat
            · simp [hbc1, hbc2] at hbc
            · have hbceq : b.toNat = c.toNat := le_antisymm (not_lt.mp hbc2) (not_lt.mp hbc1)
              have : a.toNat < c.toNat := hbceq ▸ hab1
              simp [this]
        · by_cases hab2 : b.toNat < a.toNat
          · simp [hab1, hab2] at hab
          · have habeq : a.toNat = b.toNat := le_antisymm (not_lt.mp hab2) (not_lt.mp hab1)
            by_cases hbc1 : b.toNat < c.toNat
            · have : a.toNat < c.toNat := habeq ▸ hbc1
              simp [this]
            · by_cases hbc2 : c.toNat < b.toNat
              · simp [hbc1, hbc2] at hbc
              · have h1 : ¬ a.toNat < c.toNat := by omega
                have h2 : ¬ c.toNat < a.toNat := by omega
                simp only [h1, h2, if_neg, if_false]
                exact ih bs cs (by simpa [hab1, hab2] using hab) (by simpa [hbc1, hbc2] using hbc)

/-- String comparison under SQLite's BINARY collation. -/
def strLeB (a b : String) : Bool := charListLe a.data b.data

/-- Embedding of `ORDER BY ts ASC`: compare rows by their `ts` text. -/
def tsLe (a b : Row) : Prop := strLeB a.ts b.ts = true

instance : DecidableRel tsLe := fun a b => inferInstanceAs (Decidable (strLeB a.ts b.ts = true))

instance : IsTotal Row tsLe :=
  ⟨fun a b => IsTotal.total (r := fun as bs => charListLe as bs = true) a.ts.data b.ts.data⟩

instance : IsTrans Row tsLe :=
  ⟨fun a b c h h₂ =>
    IsTrans.trans (r := fun as bs => charListLe as bs = true) a.ts.data b.ts.data c.ts.data h h₂⟩

/-- Embedding of `ORDER BY id DESC`: row `a` comes before `b` when `a.id ≥ b.id`. -/
def idGe (a b : Row) : Prop := b.id ≤ a.id

instance : DecidableRel idGe := fun a b => inferInstanceAs (Decidable (b.id ≤ a.id))

instance : IsTotal Row idGe := ⟨fun a b => le_total b.id a.id⟩

instance : IsTrans Row idGe := ⟨fun _ _ _ h h₂ => le_trans h₂ h⟩

/-- Embedding of `SELECT ts, data FROM records [WHERE ts LIKE f] ORDER BY ts ASC`
(manager.py lines 113-121).  `none` means the statement raised (no database,
no `records` table, or missing columns), which the caller catches. -/
def selectTsData (db? : Option Db) (dateFilter : Option String) : Option (List Row) :=
  match db? with
  | none => none
  | some db =>
    match db.table with
    | none => none
    | some t =>
      if eqCI t.name "records" && hasColCI t.cols "ts" && hasColCI t.cols "data" then
        match dateFilter with
        | some d => some (List.insertionSort tsLe (t.rows.filter (fun r => likeMatch d r.ts)))
        | none => some (List.insertionSort tsLe t.rows)
      else none

/-- Embedding of `SELECT id, ts, data FROM records ORDER BY id DESC LIMIT 1000`
(manager.py line 190). -/
def selectRealtime (db? : Option Db) : Option (List Row) :=
  match db? with
  | none => none
  | some db =>
    match db.table with
    | none => none
    | some t =>
      if eqCI t.name "records" && hasColCI t.cols "id" && hasColCI t.cols "ts" &&
          hasColCI t.cols "data" then
        some ((List.insertionSort idGe t.rows).take 1000)
      else none

/-- One record of the normalized history frame: the dict built at
manager.py lines 133-140 plus the derived `ts_dt` column (line 144). -/
structure HRec where
  ts : String
  line : Option JVal
  shift : Option JVal
  work_order : Option JVal
  temperature : Option JVal
  current : Option JVal
  ts_dt : Option Nat
deriving DecidableEq, Repr

/-- Column list of a non-empty normalized history frame: the record-dict
keys in insertion order, then the appended `ts_dt`. -/
def hCols : List String :=
  ["ts", "line", "shift", "work_order", "temperature", "current", "ts_dt"]

/-- A pandas DataFrame produced by the history loader: its column list and
its records. -/
structure HFrame where
  columns : List String
  recs : List HRec
deriving DecidableEq, Repr

/-- Models `pd.DataFrame(recs)` plus the `ts_dt` assignment guarded by
`if not df.empty`: an empty record list gives a frame with no columns at
all; a non-empty one has exactly the canonical columns. -/
def mkHFrame (recs : List HRec) : HFrame :=
  if recs.isEmpty then ⟨[], []⟩ else ⟨hCols, recs⟩

/-- Loop body of manager.py lines 127-140 for one fetched row, with the
`ts_dt` value of line 144 attached: `json.loads` failure is caught and
yields an empty dict, but `.get` on a decoded non-dict value raises an
uncaught AttributeError.  `parse` models `pd.to_datetime(-, errors="coerce")`
and `js` models `json.loads` (`none` = raised). -/
def rowRec (parse : String → Option Nat) (js : String → Option PyObj) (r : Row) :
    Except PyErr HRec :=
  match js r.data with
  | none => Except.ok ⟨r.ts, none, none, none, none, none, parse r.ts⟩
  | some (PyObj.dict kvs) =>
      Except.ok ⟨r.ts, pyGet kvs "line", pyGet kvs "shift", pyGet kvs "work_order",
        pyGet kvs "temperature", pyGet kvs "current", parse r.ts⟩
  | some PyObj.other => Except.error PyErr.attributeError

/-- Effectful map over a list, stopping at the first exception: models a
Python `for` loop whose body may raise. -/
def mapExcept (f : α → Except ε β) : List α → Except ε (List β)
  | [] => Except.ok []
  | a :: as =>
    match f a with
    | Except.error e => Except.error e
    | Except.ok b =>
      match mapExcept f as with
      | Except.error e => Except.error e
      | Except.ok bs => Except.ok (b :: bs)

/-- Embedding of `load_sqlite_from_bytes` (manager.py lines 104-146).  `db?` is the
outcome of writing the input bytes to a file and opening it with SQLite:
`none` when the bytes do not open as a database (the query then raises and
the handler returns an empty frame). -/
def load_sqlite_from_bytes (parse : String → Option Nat) (js : String → Option PyObj)
    (db? : Option Db) (dateFilter : Option String) : Except PyErr HFrame :=
  match selectTsData db? dateFilter with
  | none => Except.ok ⟨[], []⟩
  | some rows => (mapExcept (rowRec parse js) rows).map mkHFrame

/-- Embedding of `load_history_db` (manager.py lines 224-229): `fetched` is the fetch
result, where `none` models `gh_download_file` returning no (or empty)
bytes, and `some db?` models downloaded bytes that open as `db?`. -/
def load_history_db (parse : String → Option Nat) (js : String → Option PyObj)
    (fetched : Option (Option Db)) (dateFilter : Option String) : Except PyErr HFrame :=
  match fetched with
  | none => Except.ok ⟨[], []⟩
  | some db? => load_sqlite_from_bytes parse js db? dateFilter

/-- One record of the realtime frame: the dict built at manager.py lines
203-211 plus the derived `ts_dt` (line 215). -/
structure RtRec where
  id : Int
  ts : String
  line : Option JVal
  shift : Option JVal
  work_order : Option JVal
  temperature : Option JVal
  current : Option JVal
  ts_dt : Option Nat
deriving DecidableEq, Repr

/-- Column list of a non-empty realtime frame. -/
def rtCols : List String :=
  ["id", "ts", "line", "shift", "work_order", "temperature", "current", "ts_dt"]

/-- A pandas DataFrame produced by the realtime loader. -/
structure RtFrame where
  columns : List String
  recs : List RtRec
deriving DecidableEq, Repr

/-- Models `pd.DataFrame(recs)` plus the guarded `ts_dt` assignment for the
realtime loader. -/
def mkRtFrame (recs : List RtRec) : RtFrame :=
  if recs.isEmpty then ⟨[], []⟩ else ⟨rtCols, recs⟩

/-- Loop body of manager.py lines 197-211 for one fetched realtime row,
with the `ts_dt` value of line 215 attached. -/
def rtRowRec (parse : String → Option Nat) (js : String → Option PyObj) (r : Row) :
    Except PyErr RtRec :=
  match js r.data with
  | none => Except.ok ⟨r.id, r.ts, none, none, none, none, none, parse r.ts⟩
  | some (PyObj.dict kvs) =>
      Except.ok ⟨r.id, r.ts, pyGet kvs "line", pyGet kvs "shift", pyGet kvs "work_order",
        pyGet kvs "temperature", pyGet kvs "current", parse r.ts⟩
  | some PyObj.other => Except.error PyErr.attributeError

/-- Embedding of `load_realtime_db` (manager.py lines 179-217).  `db?` is the combined
outcome of the fetch and of opening the bytes with SQLite: `none` when the
fetch returned no (or empty) bytes, or when the bytes do not open as a
database — both paths return an empty frame. -/
def load_realtime_db (parse : String → Option Nat) (js : String → Option PyObj)
    (db? : Option Db) : Except PyErr RtFrame :=
  match selectRealtime db? with
  | none => Except.ok ⟨[], []⟩
  | some rows => (mapExcept (rtRowRec parse js) rows).map mkRtFrame

/-- One row of an archive CSV as written by the recording side: a raw
timestamp string and a JSON payload string.  (`pd.read_csv` is external;
its successful result is the row list handed to the model.) -/
structure CsvRow where
  ts : String
  data : String
deriving DecidableEq, Repr

/-- One record of the archive frame after the JSON merge loop of
manager.py lines 284-289 and the `ts_dt` assignment of line 291.  The
frame's column list is elided: it is the CSV columns plus whichever
canonical columns the merge produced. -/
structure ARec where
  ts : String
  line : Option JVal
  shift : Option JVal
  work_order : Option JVal
  temperature : Option JVal
  current : Option JVal
  ts_dt : Option Nat
deriving DecidableEq, Repr

/-- Archive frame: record list only (see `ARec`). -/
structure AFrame where
  recs : List ARec
deriving DecidableEq, Repr

/-- Per-row body of the archive JSON merge: `json.loads` runs unguarded
inside `Series.apply`, so a malformed payload raises out of the loader;
`pd.json_normalize` over a decoded non-dict raises as well. -/
def aRowRec (parse : String → Option Nat) (js : String → Option PyObj) (r : CsvRow) :
    Except PyErr ARec :=
  match js r.data with
  | none => Except.error PyErr.jsonError
  | some (PyObj.dict kvs) =>
      Except.ok ⟨r.ts, pyGet kvs "line", pyGet kvs "shift", pyGet kvs "work_order",
        pyGet kvs "temperature", pyGet kvs "current", parse r.ts⟩
  | some PyObj.other => Except.error PyErr.attributeError

/-- Embedding of `load_archive_csv` (manager.py lines 275-292): `csv?` is `none` when
the fetch returned no (or empty) bytes, otherwise the parsed CSV rows.
Row order is the CSV order: nothing in the loader sorts. -/
def load_archive_csv (parse : String → Option Nat) (js : String → Option PyObj)
    (csv? : Option (List CsvRow)) : Except PyErr AFrame :=
  match csv? with
  | none => Except.ok ⟨[]⟩
  | some rows => (mapExcept (aRowRec parse js) rows).map AFrame.mk

/-- Numeric value of a list of decimal digit characters; `none` when the
list is empty or holds a non-digit. -/
def digitsToNat : List Char → Nat → Option Nat
  | [], acc => some acc
  | c :: rest, acc =>
    if c.isDigit then digitsToNat rest (acc * 10 + (c.toNat - 48)) else none

/-- Models `pd.to_datetime(-, errors="coerce")` on the fixed
`YYYY-MM-DD HH:MM:SS` timestamp format the recorder writes: a parsed
timestamp is encoded as a single Nat that is strictly monotone in the
(year, month, day, hour, minute, second) tuple; any other shape coerces to
`none` (NaT). -/
def parseIsoTs (s : String) : Option Nat :=
  match s.data with
  | [y1, y2, y3, y4, '-', m1, m2, '-', d1, d2, ' ', h1, h2, ':', n1, n2, ':', s1, s2] =>
    match digitsToNat [y1, y2, y3, y4] 0, digitsToNat [m1, m2] 0, digitsToNat [d1, d2] 0,
        digitsToNat [h1, h2] 0, digitsToNat [n1, n2] 0, digitsToNat [s1, s2] 0 with
    | some y, some mo, some d, some h, some mi, some se =>
        some (((((y * 13 + mo) * 32 + d) * 24 + h) * 60 + mi) * 60 + se)
    | _, _, _, _, _, _ => none
  | _ => none

/-- Is a list of optional parsed timestamps nondecreasing on every
consecutive pair whose two values are both present? -/
def nondecOpt : List (Option Nat) → Bool
  | a :: b :: rest =>
    (match a, b with
     | some x, some y => decide (x ≤ y)
     | _, _ => true) && nondecOpt (b :: rest)
  | _ => true

/-- Column declarations of the `CREATE TABLE IF NOT EXISTS records` DDL run
by `clear_history_db` (manager.py lines 238-244): name, declared SQL type,
whether it is the auto-incrementing integer primary key, and whether it is
NOT NULL. -/
structure ColSpec where
  name : String
  sqlType : String
  pkAutoinc : Bool
  notNull : Bool
deriving DecidableEq, Repr

/-- The three columns created by the reset DDL. -/
def clear_history_columns : List ColSpec :=
  [⟨"id", "INTEGER", true, false⟩, ⟨"ts", "TEXT", false, true⟩, ⟨"data", "TEXT", false, true⟩]

/-- The database written by `clear_history_db` (manager.py lines 232-252):
a fresh file holding the single empty `records` table, which is then
uploaded to `Data/local/local_historical.db`. -/
def clear_history_db : Db :=
  ⟨some ⟨"records", clear_history_columns.map ColSpec.name, []⟩⟩

/-- The `st.secrets` entries the GitHub helpers read.  `git_branch` and
`alt_repos` model `st.secrets.get(..., default)` lookups and are `none`
when the key is absent. -/
structure Secrets where
  git_owner : String
  git_repo : String
  git_branch : Option String
  alt_repos : Option String
deriving DecidableEq, Repr

/-- Embedding of `gh_owner_repo_branch` (manager.py lines 32-37). -/
def gh_owner_repo_branch (s : Secrets) : String × String × String :=
  (s.git_owner, s.git_repo, s.git_branch.getD "main")

/-- Python `str.split(",")`. -/
def splitCommaAux : List Char → List Char → List String
  | [], acc => [String.mk acc.reverse]
  | c :: rest, acc =>
    if c = ',' then String.mk acc.reverse :: splitCommaAux rest [] else splitCommaAux rest (c :: acc)

/-- Python `s.split(",")` on a string. -/
def splitComma (s : String) : List String := splitCommaAux s.data []

/-- Python `str.strip()` restricted to ASCII whitespace. -/
def pyStrip (s : String) : String :=
  String.mk ((((s.data.dropWhile (fun c => c = ' ' || c = '\t' || c = '\n' || c = '\r')).reverse).dropWhile
      (fun c => c = ' ' || c = '\t' || c = '\n' || c = '\r')).reverse)

/-- The `seen`/`out` deduplication loop of `gh_repos` (manager.py lines
43-46): keep the first occurrence of each name, preserving order. -/
def dedupFirst (l : List String) : List String :=
  (l.foldl (fun acc n => if n ∈ acc.2 then acc else (acc.1 ++ [n], n :: acc.2))
    (([] : List String), ([] : List String))).1

/-- Embedding of `gh_repos` (manager.py lines 39-47): the primary repo followed by the
alternates (defaulting to "EMS,recording"), split on commas, stripped,
blanks dropped, first occurrence kept. -/
def gh_repos (s : Secrets) : List String :=
  dedupFirst (((splitComma (s.git_repo ++ "," ++ s.alt_repos.getD "EMS,recording")).map
    pyStrip).filter (fun x => x ≠ ""))

/-- Body of a GitHub contents-API response as far as `gh_download_file`
inspects it: `notJson` when `r.json()` raises, otherwise the value of the
`"content"` key (`none` when absent or JSON null; a non-string truthy value
behaves like a string that fails base64 decoding). -/
inductive RespBody where
  | notJson
  | json (content : Option String)
deriving DecidableEq, Repr

/-- Outcome of one `requests.get` call: either the call raised (connection
error, timeout, ...) or an HTTP response arrived. -/
inductive GetOutcome where
  | raise
  | resp (status : Nat) (body : RespBody)
deriving DecidableEq, Repr

/-- The contents-API URL built at manager.py line 53. -/
def ghUrl (owner repo path branch : String) : String :=
  "https://api.github.com/repos/" ++ owner ++ "/" ++ repo ++ "/contents/" ++ path ++
    "?ref=" ++ branch

/-- The repo loop of `gh_download_file` (manager.py lines 52-64), also
recording each URL actually requested.  `net` models the HTTP layer and
`b64` models `base64.b64decode` on the bytes type `α` (`none` = raised,
which the code catches and skips). -/
def gh_download_go (net : String → GetOutcome) (b64 : String → Option α)
    (owner path branch : String) : List String → Except PyErr (Option α) × List String
  | [] => (Except.ok none, [])
  | repo :: rest =>
    let url := ghUrl owner repo path branch
    match net url with
    | GetOutcome.raise => (Except.error PyErr.requestError, [url])
    | GetOutcome.resp status body =>
      if status = 200 then
        match body with
        | RespBody.notJson => (Except.error PyErr.jsonError, [url])
        | RespBody.json none =>
          let r := gh_download_go net b64 owner path branch rest
          (r.1, url :: r.2)
        | RespBody.json (some c) =>
          if c = "" then
            let r := gh_download_go net b64 owner path branch rest
            (r.1, url :: r.2)
          else
            match b64 c with
            | some bytes => (Except.ok (some bytes), [url])
            | none =>
              let r := gh_download_go net b64 owner path branch rest
              (r.1, url :: r.2)
      else
        let r := gh_download_go net b64 owner path branch rest
        (r.1, url :: r.2)

/-- The list of URLs `gh_download_file` actually requests, in order. -/
def gh_request_urls (net : String → GetOutcome) (b64 : String → Option α)
    (s : Secrets) (path : String) : List String :=
  (gh_download_go net b64 s.git_owner path (s.git_branch.getD "main") (gh_repos s)).2

/-- Message widgets the maintenance tab can show. -/
inductive UiMsg where
  | warning (m : String)
  | success (m : String)
  | error (m : String)
deriving DecidableEq, Repr

/-- The clear-history button handler of `history_page` (manager.py lines
429-437): given the confirmation text and the upload outcome of
`clear_history_db`, returns the message shown and whether the remote write
(`clear_history_db`, hence `gh_upload_file`) was invoked at all. -/
def history_clear_click (confirm : String) (uploadOk : Bool) : UiMsg × Bool :=
  if confirm ≠ "DELETE" then (UiMsg.warning "确认文字不正确", false)
  else if uploadOk then (UiMsg.success "history.db 已清空并上传到 GitHub", true)
  else (UiMsg.error "清空失败", true)

/-! ### Concrete inputs used by counterexamples and witnesses -/

/-- A database whose single table has the source columns `Device_Name` and
`temp_C` and one row holding ("L1", 36.5).  `Row` is a positional stand-in
here: the loader's query fails on this table before any row is read. -/
def dbDeviceTemp : Db := ⟨some ⟨"records", ["Device_Name", "temp_C"], [⟨1, "L1", "36.5"⟩]⟩⟩

/-- A realtime database with two rows whose timestamps increase with the
identifier, as the recorder writes them. -/
def rtDb2 : Db := ⟨some ⟨"records", ["id", "ts", "data"],
  [⟨1, "2024-01-01 00:00:00", "x"⟩, ⟨2, "2024-01-02 00:00:00", "x"⟩]⟩⟩

/-- The frame the realtime loader produces from `rtDb2`: rows in identifier
order descending, hence parsed timestamps descending. -/
def rtFrame2 : RtFrame := ⟨rtCols,
  [⟨2, "2024-01-02 00:00:00", none, none, none, none, none, parseIsoTs "2024-01-02 00:00:00"⟩,
   ⟨1, "2024-01-01 00:00:00", none, none, none, none, none, parseIsoTs "2024-01-01 00:00:00"⟩]⟩

/-- A secrets configuration with primary repo "A" and the default
alternate-repo list. -/
def s0 : Secrets := ⟨"o", "A", none, none⟩

/-- A network in which repo "A" answers 404 and every other URL answers 200
with decodable content. -/
def net0 : String → GetOutcome := fun u =>
  if u = ghUrl "o" "A" "p" "main" then GetOutcome.resp 404 (RespBody.json none)
  else GetOutcome.resp 200 (RespBody.json (some "c"))

/-- Two realtime rows for the C10 witness. -/
def c10Rows : List Row := [⟨1, "a", "x"⟩, ⟨2, "b", "x"⟩]

/-- The frame the realtime loader produces from `c10Rows`. -/
def c10Frame : RtFrame := ⟨rtCols,
  [⟨2, "b", none, none, none, none, none, none⟩, ⟨1, "a", none, none, none, none, none, none⟩]⟩


/-- The rational 36.5 = 73/2, written as an explicit normalized fraction so
that concrete frames evaluate in the kernel. -/
def q365 : ℚ := ⟨73, 2, by decide, by decide⟩

theorem q365_eq : q365 = 36.5 := by
  rw [show (36.5 : ℚ) = 73 / 2 by norm_num, Rat.eq_iff_mul_eq_mul]
  norm_num [q365]

/-! ### Helper lemmas -/

theorem except_map_ok {ε α β : Type} {e : Except ε α} {f : α → β} {c : β}
    (h : e.map f = Except.ok c) : ∃ b, e = Except.ok b ∧ f b = c := by
  cases e with
  | error e => simp [Except.map] at h
  | ok b => exact ⟨b, rfl, by simpa [Except.map] using h⟩

theorem mapExcept_ok_map {α β γ ε : Type} {f : α → Except ε β} {g : β → γ} {h : α → γ}
    (hf : ∀ a b, f a = Except.ok b → g b = h a) :
    ∀ {as : List α} {bs : List β}, mapExcept f as = Except.ok bs → bs.map g = as.map h := by
  intro as
  induction as with
  | nil =>
    intro bs hm
    simp only [mapExcept] at hm
    cases hm
    rfl
  | cons a as ih =>
    intro bs hm
    simp only [mapExcept] at hm
    cases hfa : f a with
    | error e => rw [hfa] at hm; cases hm
    | ok b =>
      rw [hfa] at hm
      cases hrest : mapExcept f as with
      | error e => rw [hrest] at hm; cases hm
      | ok bs' =>
        rw [hrest] at hm
        cases hm
        simp only [List.map]
        rw [hf a b hfa, ih hrest]

theorem mapExcept_ok_length {α β ε : Type} {f : α → Except ε β}
    {as : List α} {bs : List β} (hm : mapExcept f as = Except.ok bs) :
    bs.length = as.length := by
  have := mapExcept_ok_map (g := fun _ => ()) (h := fun _ => ()) (fun _ _ _ => rfl) hm
  calc bs.length = (bs.map fun _ => ()).length := (List.length_map _ _).symm
    _ = (as.map fun _ => ()).length := by rw [this]
    _ = as.length := List.length_map _ _

theorem rowRec_ts {parse : String → Option Nat} {js : String → Option PyObj} {r : Row}
    {rec : HRec} (h : rowRec parse js r = Except.ok rec) : rec.ts = r.ts := by
  unfold rowRec at h
  cases hjs : js r.data with
  | none => rw [hjs] at h; cases h; rfl
  | some o =>
    rw [hjs] at h
    cases o with
    | dict kvs => cases h; rfl
    | other => cases h

theorem rtRowRec_id {parse : String → Option Nat} {js : String → Option PyObj} {r : Row}
    {rec : RtRec} (h : rtRowRec parse js r = Except.ok rec) : rec.id = r.id := by
  unfold rtRowRec at h
  cases hjs : js r.data with
  | none => rw [hjs] at h; cases h; rfl
  | some o =>
    rw [hjs] at h
    cases o with
    | dict kvs => cases h; rfl
    | other => cases h

theorem aRowRec_ts {parse : String → Option Nat} {js : String → Option PyObj} {r : CsvRow}
    {rec : ARec} (h : aRowRec parse js r = Except.ok rec) : rec.ts = r.ts := by
  unfold aRowRec at h
  cases hjs : js r.data with
  | none => rw [hjs] at h; cases h
  | some o =>
    rw [hjs] at h
    cases o with
    | dict kvs => cases h; rfl
    | other => cases h

theorem mkHFrame_recs (recs : List HRec) : (mkHFrame recs).recs = recs := by
  unfold mkHFrame
  by_cases h : recs.isEmpty
  · rw [if_pos h, List.isEmpty_iff.mp h]
  · rw [if_neg h]

theorem mkRtFrame_recs (recs : List RtRec) : (mkRtFrame recs).recs = recs := by
  unfold mkRtFrame
  by_cases h : recs.isEmpty
  · rw [if_pos h, List.isEmpty_iff.mp h]
  · rw [if_neg h]

theorem mkHFrame_columns (recs : List HRec) :
    (mkHFrame recs).columns = if recs = [] then [] else hCols := by
  unfold mkHFrame
  by_cases h : recs.isEmpty
  · rw [if_pos h, if_pos (List.isEmpty_iff.mp h)]
  · rw [if_neg h, if_neg (by simpa [List.isEmpty_iff] using h)]

theorem selectTsData_sorted {db? : Option Db} {f : Option String} {rows : List Row}
    (h : selectTsData db? f = some rows) : List.Pairwise tsLe rows := by
  unfold selectTsData at h
  split at h
  · cases h
  · split at h
    · cases h
    · split at h
      · split at h
        · cases h; exact List.sorted_insertionSort tsLe _
        · cases h; exact List.sorted_insertionSort tsLe _
      · cases h

theorem selectRealtime_sorted {db? : Option Db} {rows : List Row}
    (h : selectRealtime db? = some rows) : List.Pairwise idGe rows := by
  unfold selectRealtime at h
  split at h
  · cases h
  · split at h
    · cases h
    · split at h
      · cases h
        exact (List.sorted_insertionSort idGe _).sublist (List.take_sublist _ _)
      · cases h

theorem gh_go_trace_shape {α : Type} (net : String → GetOutcome) (b64 : String → Option α)
    (owner path branch : String) (repo : String) (rest : List String) :
    (gh_download_go net b64 owner path branch (repo :: rest)).2 = [ghUrl owner repo path branch] ∨
      (gh_download_go net b64 owner path branch (repo :: rest)).2 =
        ghUrl owner repo path branch :: (gh_download_go net b64 owner path branch rest).2 := by
  cases hn : net (ghUrl owner repo path branch) with
  | raise => left; simp [gh_download_go, hn]
  | resp status body =>
    by_cases hs : status = 200
    · cases body with
      | notJson => left; simp [gh_download_go, hn, hs]
      | json content =>
        cases content with
        | none => right; simp [gh_download_go, hn, hs]
        | some c =>
          by_cases hc : c = ""
          · right; simp [gh_download_go, hn, hs, hc]
          · cases hb : b64 c with
            | some bytes => left; simp [gh_download_go, hn, hs, hc, hb]
            | none => right; simp [gh_download_go, hn, hs, hc, hb]
    · right; simp [gh_download_go, hn, hs]

theorem gh_go_urls_initial {α : Type} (net : String → GetOutcome) (b64 : String → Option α)
    (owner path branch : String) :
    ∀ repos : List String,
      (∃ t, (gh_download_go net b64 owner path branch repos).2 ++ t =
        repos.map (fun repo => ghUrl owner repo path branch)) ∧
      (gh_download_go net b64 owner path branch repos).2.length ≤ repos.length := by
  intro repos
  induction repos with
  | nil => exact ⟨⟨[], rfl⟩, le_refl 0⟩
  | cons repo rest ih =>
    rcases gh_go_trace_shape net b64 owner path branch repo rest with h | h
    · constructor
      · exact ⟨rest.map (fun repo => ghUrl owner repo path branch), by rw [h]; rfl⟩
      · rw [h]; simp
    · constructor
      · obtain ⟨t, ht⟩ := ih.1
        exact ⟨t, by rw [h]; simpa using ht⟩
      · rw [h]
        simpa using Nat.succ_le_succ ih.2

/-! ### Claims -/

/-- Claim C1, counterexample: on a source table with columns `Device_Name`
and `temp_C` holding the single row ("L1", 36.5), the Normalizer does not
produce a record with device "L1" and temperature 36.5 — the fixed query
`SELECT ts, data FROM records` fails on those columns and the output is the
empty frame with no rows at all. -/
theorem c1_cex :
    load_sqlite_from_bytes (fun _ => none) (fun _ => none) (some dbDeviceTemp) none =
      Except.ok ⟨[], []⟩ := by decide

/-- Claim C1 (amended): the Normalizer performs no column-name matching.
It requires a table named `records` with columns `ts` and `data`; if either
column is missing the output is the empty frame (part 1).  Canonical fields
are filled by exact JSON key lookup (`line`, `shift`, `work_order`,
`temperature`, `current`) in the `data` payload: a row whose payload holds
line "L1" and temperature 36.5 yields a record with exactly those two
fields set and every other canonical field absent (parts 2 and 3). -/
theorem c1_normalizer_exact_key_lookup :
    (∀ (parse : String → Option Nat) (js : String → Option PyObj) (t : TableDef)
        (f : Option String),
        hasColCI t.cols "ts" = false ∨ hasColCI t.cols "data" = false →
        load_sqlite_from_bytes parse js (some ⟨some t⟩) f = Except.ok ⟨[], []⟩)
  ∧ load_sqlite_from_bytes (fun _ => none)
      (fun d => if d = "d1"
        then some (PyObj.dict [("line", JVal.str "L1"), ("temperature", JVal.num q365)])
        else none)
      (some ⟨some ⟨"records", ["ts", "data"], [⟨1, "2024-01-01 00:00:00", "d1"⟩]⟩⟩) none =
      Except.ok ⟨hCols, [⟨"2024-01-01 00:00:00", some (JVal.str "L1"), none, none,
        some (JVal.num q365), none, none⟩]⟩
  ∧ q365 = 36.5 := by
  refine ⟨?_, by decide, q365_eq⟩
  intro parse js t f h
  have hc : (eqCI t.name "records" && hasColCI t.cols "ts" && hasColCI t.cols "data") = false := by
    rcases h with h | h <;> simp [h]
  simp [load_sqlite_from_bytes, selectTsData, hc]

/-- Witness for the hypothesis of the C1 theorem: a concrete table without
a `ts` column yields the empty frame. -/
theorem c1_witness :
    load_sqlite_from_bytes (fun _ => none) (fun _ => none)
      (some ⟨some ⟨"records", ["foo"], []⟩⟩) none = Except.ok ⟨[], []⟩ :=
  c1_normalizer_exact_key_lookup.1 (fun _ => none) (fun _ => none)
    ⟨"records", ["foo"], []⟩ none (Or.inl (by decide))

/-- Claim C2, counterexample: the realtime loader returns rows ordered by
identifier descending, so on `rtDb2` the two consecutive rows have parsed
timestamps both present and strictly decreasing. -/
theorem c2_cex :
    load_realtime_db parseIsoTs (fun _ => none) (some rtDb2) = Except.ok rtFrame2
  ∧ nondecOpt (rtFrame2.recs.map RtRec.ts_dt) = false := by constructor <;> decide

/-- Claim C2 (amended): a history load is sorted by the raw timestamp
string ascending under SQLite text collation (part 1); a realtime load is
sorted by identifier descending, not by timestamp (part 2); an archive load
preserves the source row order unchanged (part 3). -/
theorem c2_load_orderings :
    (∀ (parse : String → Option Nat) (js : String → Option PyObj) (db? : Option Db)
        (f : Option String) (frame : HFrame),
        load_sqlite_from_bytes parse js db? f = Except.ok frame →
        List.Pairwise (fun a b => strLeB a b = true) (frame.recs.map HRec.ts))
  ∧ (∀ (parse : String → Option Nat) (js : String → Option PyObj) (db? : Option Db)
        (frame : RtFrame),
        load_realtime_db parse js db? = Except.ok frame →
        List.Pairwise (fun a b : Int => b ≤ a) (frame.recs.map RtRec.id))
  ∧ (∀ (parse : String → Option Nat) (js : String → Option PyObj) (rows : List CsvRow)
        (frame : AFrame),
        load_archive_csv parse js (some rows) = Except.ok frame →
        frame.recs.map ARec.ts = rows.map CsvRow.ts) := by
  refine ⟨?_, ?_, ?_⟩
  · intro parse js db? f frame h
    unfold load_sqlite_from_bytes at h
    cases hsel : selectTsData db? f with
    | none => rw [hsel] at h; cases h; simp
    | some rows =>
      rw [hsel] at h
      obtain ⟨recs, hm, hmk⟩ := except_map_ok h
      have hmap : recs.map HRec.ts = rows.map Row.ts :=
        mapExcept_ok_map (fun r rec hr => rowRec_ts hr) hm
      rw [← hmk, mkHFrame_recs, hmap]
      exact List.pairwise_map.mpr (selectTsData_sorted hsel)
  · intro parse js db? frame h
    unfold load_realtime_db at h
    cases hsel : selectRealtime db? with
    | none => rw [hsel] at h; cases h; simp
    | some rows =>
      rw [hsel] at h
      obtain ⟨recs, hm, hmk⟩ := except_map_ok h
      have hmap : recs.map RtRec.id = rows.map Row.id :=
        mapExcept_ok_map (fun r rec hr => rtRowRec_id hr) hm
      rw [← hmk, mkRtFrame_recs, hmap]
      exact List.pairwise_map.mpr (selectRealtime_sorted hsel)
  · intro parse js rows frame h
    unfold load_archive_csv at h
    obtain ⟨recs, hm, hmk⟩ := except_map_ok h
    rw [← hmk]
    exact mapExcept_ok_map (fun r rec hr => aRowRec_ts hr) hm

/-- Witness for the hypotheses of the C2 theorem, at concrete loads. -/
theorem c2_witness :
    List.Pairwise (fun a b => strLeB a b = true)
      ((HFrame.mk [] []).recs.map HRec.ts)
  ∧ List.Pairwise (fun a b : Int => b ≤ a) (rtFrame2.recs.map RtRec.id)
  ∧ (AFrame.mk []).recs.map ARec.ts = ([] : List CsvRow).map CsvRow.ts :=
  ⟨c2_load_orderings.1 (fun _ => none) (fun _ => none) none none ⟨[], []⟩ (by decide),
   c2_load_orderings.2.1 parseIsoTs (fun _ => none) (some rtDb2) rtFrame2 (by decide),
   c2_load_orderings.2.2 (fun _ => none) (fun _ => none) [] ⟨[]⟩ (by decide)⟩

/-- Claim C3, counterexample: a well-formed but empty `records` table
produces a frame with no columns at all, not the canonical column set. -/
theorem c3_cex :
    load_sqlite_from_bytes (fun _ => none) (fun _ => none)
      (some ⟨some ⟨"records", ["ts", "data"], []⟩⟩) none = Except.ok ⟨[], []⟩
  ∧ (HFrame.mk [] []).columns ≠ hCols := by constructor <;> decide

/-- Claim C3 (amended): when the Normalizer produces at least one record
the frame has exactly the canonical columns
ts, line, shift, work_order, temperature, current, ts_dt in that order;
when it produces no records the frame has no columns (part 1).  In a
produced record every canonical field is exactly the key lookup of the
row's decoded payload (part 2), and a key bound nowhere in the payload —
any missing canonical field, for any payload — looks up to absent/null
(part 3). -/
theorem c3_canonical_columns :
    (∀ (parse : String → Option Nat) (js : String → Option PyObj) (db? : Option Db)
        (f : Option String) (frame : HFrame),
        load_sqlite_from_bytes parse js db? f = Except.ok frame →
        (frame.recs = [] → frame.columns = []) ∧ (frame.recs ≠ [] → frame.columns = hCols))
  ∧ (∀ (parse : String → Option Nat) (js : String → Option PyObj) (r : Row)
        (kvs : List (String × JVal)),
        js r.data = some (PyObj.dict kvs) →
        rowRec parse js r = Except.ok ⟨r.ts, pyGet kvs "line", pyGet kvs "shift",
          pyGet kvs "work_order", pyGet kvs "temperature", pyGet kvs "current", parse r.ts⟩)
  ∧ (∀ (kvs : List (String × JVal)) (k : String),
        (∀ p ∈ kvs, p.1 ≠ k) → pyGet kvs k = none) := by
  refine ⟨?_, ?_, ?_⟩
  · intro parse js db? f frame h
    unfold load_sqlite_from_bytes at h
    cases hsel : selectTsData db? f with
    | none =>
      rw [hsel] at h; cases h
      exact ⟨fun _ => rfl, fun hne => absurd rfl hne⟩
    | some rows =>
      rw [hsel] at h
      obtain ⟨recs, hm, hmk⟩ := except_map_ok h
      rw [← hmk, mkHFrame_recs, mkHFrame_columns]
      constructor
      · intro hre; rw [if_pos hre]
      · intro hre; rw [if_neg hre]
  · intro parse js r kvs h
    unfold rowRec
    rw [h]
  · intro kvs k hk
    have hlk : ∀ l : List (String × JVal), (∀ p ∈ l, p.1 ≠ k) → l.lookup k = none := by
      intro l
      induction l with
      | nil => intro _; rfl
      | cons p l ih =>
        intro hp
        rcases p with ⟨pk, pv⟩
        have hne : (k == pk) = false := by
          have hpk := hp ⟨pk, pv⟩ (List.mem_cons_self _ _)
          simp only [beq_eq_false_iff_ne]
          exact fun he => hpk he.symm
        simp only [List.lookup, hne]
        exact ih (fun p hp2 => hp p (List.mem_cons_of_mem _ hp2))
    have hrev : kvs.reverse.lookup k = none :=
      hlk kvs.reverse (fun p hp => hk p (List.mem_reverse.mp hp))
    unfold pyGet
    rw [hrev]

/-- Witness for the hypotheses of the C3 theorem, at concrete inputs; the
payload holds the `line` key but not the `shift` key. -/
theorem c3_witness :
    ((HFrame.mk [] []).recs = [] → (HFrame.mk [] []).columns = [])
  ∧ rowRec (fun _ => none) (fun _ => some (PyObj.dict [("line", JVal.str "L1")])) ⟨1, "t", "d"⟩ =
      Except.ok ⟨"t", pyGet [("line", JVal.str "L1")] "line",
        pyGet [("line", JVal.str "L1")] "shift", pyGet [("line", JVal.str "L1")] "work_order",
        pyGet [("line", JVal.str "L1")] "temperature", pyGet [("line", JVal.str "L1")] "current",
        none⟩
  ∧ pyGet [("line", JVal.str "L1")] "shift" = none :=
  ⟨(c3_canonical_columns.1 (fun _ => none) (fun _ => none) none none ⟨[], []⟩ (by decide)).1,
   c3_canonical_columns.2.1 (fun _ => none) (fun _ => some (PyObj.dict [("line", JVal.str "L1")]))
     ⟨1, "t", "d"⟩ [("line", JVal.str "L1")] rfl,
   c3_canonical_columns.2.2 [("line", JVal.str "L1")] "shift" (by decide)⟩

/-- Claim C5, counterexample: the table written by the reset operation has
exactly the three columns id, ts, data — not the eight canonical columns
claimed (in particular there is no temperature column). -/
theorem c5_cex :
    clear_history_columns.map ColSpec.name = ["id", "ts", "data"]
  ∧ (clear_history_columns.map ColSpec.name).length ≠ 8
  ∧ ("temperature" ∈ clear_history_columns.map ColSpec.name → False) := by
  refine ⟨by decide, by decide, by decide⟩

/-- Claim C5 (amended): the reset operation writes a database consisting of
the single empty table `records` whose columns are exactly: id
(auto-incrementing integer primary key), ts (text, not null) and data
(text, not null); the canonical sensor fields live inside the JSON `data`
payload rather than as columns. -/
theorem c5_reset_schema :
    clear_history_db.table = some ⟨"records", ["id", "ts", "data"], []⟩
  ∧ clear_history_columns.map ColSpec.name = ["id", "ts", "data"]
  ∧ clear_history_columns.map ColSpec.sqlType = ["INTEGER", "TEXT", "TEXT"]
  ∧ clear_history_columns.map ColSpec.pkAutoinc = [true, false, false]
  ∧ clear_history_columns.map ColSpec.notNull = [false, true, true] := by
  refine ⟨by decide, by decide, by decide, by decide, by decide⟩

/-- Claim C6, counterexample: re-reading the database written by the reset
operation yields zero rows but also zero columns — the canonical column set
is not present in the resulting frame. -/
theorem c6_cex :
    load_sqlite_from_bytes (fun _ => none) (fun _ => none) (some clear_history_db) none =
      Except.ok ⟨[], []⟩
  ∧ (HFrame.mk [] []).columns ≠ hCols ∧ hCols ≠ [] := by
  refine ⟨by decide, by decide, by decide⟩

/-- Claim C6 (amended): normalizing the database written by the reset
operation yields a frame with zero rows and zero columns, for every parse
and JSON environment and every date filter. -/
theorem c6_reset_roundtrip :
    ∀ (parse : String → Option Nat) (js : String → Option PyObj) (f : Option String),
      load_sqlite_from_bytes parse js (some clear_history_db) f = Except.ok ⟨[], []⟩ := by
  intro parse js f
  cases f <;> rfl

/-- Claim C7 (confirmed): when no bytes are supplied (part 1), when the
bytes do not open as a database (part 2), and when the bytes open as a
database with no table — as the empty byte string does (part 3) — the
result is the empty frame, returned normally with no exception. -/
theorem c7_bad_input_empty :
    (∀ (parse : String → Option Nat) (js : String → Option PyObj) (f : Option String),
        load_history_db parse js none f = Except.ok ⟨[], []⟩)
  ∧ (∀ (parse : String → Option Nat) (js : String → Option PyObj) (f : Option String),
        load_sqlite_from_bytes parse js none f = Except.ok ⟨[], []⟩)
  ∧ (∀ (parse : String → Option Nat) (js : String → Option PyObj) (f : Option String),
        load_sqlite_from_bytes parse js (some ⟨none⟩) f = Except.ok ⟨[], []⟩) :=
  ⟨fun _ _ _ => rfl, fun _ _ _ => rfl, fun _ _ _ => rfl⟩

/-- Claim C8, counterexample: with the default alternate-repo list and a
404 from the primary repo, a single `gh_download_file` invocation issues
two GET requests, not at most one. -/
theorem c8_cex :
    gh_request_urls net0 (fun s : String => some s) s0 "p" =
      [ghUrl "o" "A" "p" "main", ghUrl "o" "EMS" "p" "main"]
  ∧ (gh_request_urls net0 (fun s : String => some s) s0 "p").length = 2 := by
  refine ⟨by decide, by decide⟩

/-- Claim C8 (amended): a single invocation issues at most one GET per
configured repository — the requested URLs are an initial segment of the
per-repository URL list, tried in order until the first success, with no
retry of any URL — so the number of requests is bounded by the number of
configured repositories, not by one. -/
theorem c8_one_request_per_repo :
    ∀ (α : Type) (net : String → GetOutcome) (b64 : String → Option α)
      (s : Secrets) (path : String),
      (∃ t, gh_request_urls net b64 s path ++ t =
        (gh_repos s).map (fun repo => ghUrl s.git_owner repo path (s.git_branch.getD "main")))
    ∧ (gh_request_urls net b64 s path).length ≤ (gh_repos s).length := by
  intro α net b64 s path
  exact gh_go_urls_initial net b64 s.git_owner path (s.git_branch.getD "main") (gh_repos s)

/-- Claim C9 (confirmed): any confirmation text other than the literal
"DELETE" (case-sensitive) makes the clear-history action show a warning
and perform no remote write. -/
theorem c9_confirmation_gate :
    ∀ (confirm : String) (uploadOk : Bool), confirm ≠ "DELETE" →
      history_clear_click confirm uploadOk = (UiMsg.warning "确认文字不正确", false) := by
  intro confirm uploadOk h
  simp [history_clear_click, h]

/-- Witness for the hypothesis of the C9 theorem: lowercase "delete" is
rejected with a warning and no write. -/
theorem c9_witness :
    history_clear_click "delete" true = (UiMsg.warning "确认文字不正确", false) :=
  c9_confirmation_gate "delete" true (by decide)

/-- Claim C10 (confirmed): the realtime load returns min(1000, n) records,
ordered by identifier descending, and every identifier in the source table
either appears in the result or is at most every identifier that does — so
the result is exactly the records with the 1000 highest identifiers, and
older records beyond that bound are omitted. -/
theorem c10_realtime_limit :
    ∀ (parse : String → Option Nat) (js : String → Option PyObj) (rows : List Row)
      (frame : RtFrame),
      load_realtime_db parse js (some ⟨some ⟨"records", ["id", "ts", "data"], rows⟩⟩) =
        Except.ok frame →
      frame.recs.length = min 1000 rows.length
    ∧ List.Pairwise (fun a b : Int => b ≤ a) (frame.recs.map RtRec.id)
    ∧ ∀ i ∈ rows.map Row.id, i ∈ frame.recs.map RtRec.id ∨
        ∀ j ∈ frame.recs.map RtRec.id, i ≤ j := by
  intro parse js rows frame h
  have hsel : selectRealtime (some ⟨some ⟨"records", ["id", "ts", "data"], rows⟩⟩) =
      some ((List.insertionSort idGe rows).take 1000) := rfl
  unfold load_realtime_db at h
  rw [hsel] at h
  obtain ⟨recs, hm, hmk⟩ := except_map_ok h
  have hmap : recs.map RtRec.id = ((List.insertionSort idGe rows).take 1000).map Row.id :=
    mapExcept_ok_map (fun r rec hr => rtRowRec_id hr) hm
  have hsorted : List.Pairwise idGe (List.insertionSort idGe rows) :=
    List.sorted_insertionSort idGe rows
  have hperm : List.Perm (List.insertionSort idGe rows) rows := List.perm_insertionSort idGe rows
  refine ⟨?_, ?_, ?_⟩
  · rw [← hmk, mkRtFrame_recs, mapExcept_ok_length hm, List.length_take, hperm.length_eq]
  · rw [← hmk, mkRtFrame_recs, hmap]
    exact List.pairwise_map.mpr (hsorted.sublist (List.take_sublist _ _))
  · intro i hi
    rw [← hmk, mkRtFrame_recs, hmap]
    obtain ⟨r, hr, hri⟩ := List.mem_map.mp hi
    have hrs : r ∈ List.insertionSort idGe rows := hperm.mem_iff.mpr hr
    rw [← List.take_append_drop 1000 (List.insertionSort idGe rows)] at hrs
    rcases List.mem_append.mp hrs with hrt | hrd
    · exact Or.inl (List.mem_map.mpr ⟨r, hrt, hri⟩)
    · refine Or.inr ?_
      intro j hj
      obtain ⟨x, hx, hxj⟩ := List.mem_map.mp hj
      have hcross := (List.pairwise_append.mp
        (by rwa [List.take_append_drop] )).2.2 x hx r hrd
      rw [← hxj, ← hri]
      exact hcross

/-- Witness for the hypothesis of the C10 theorem, at a concrete two-row
realtime table. -/
theorem c10_witness :
    c10Frame.recs.length = min 1000 c10Rows.length
  ∧ List.Pairwise (fun a b : Int => b ≤ a) (c10Frame.recs.map RtRec.id)
  ∧ ∀ i ∈ c10Rows.map Row.id, i ∈ c10Frame.recs.map RtRec.id ∨
      ∀ j ∈ c10Frame.recs.map RtRec.id, i ≤ j :=
  c10_realtime_limit (fun _ => none) (fun _ => none) c10Rows c10Frame (by decide)

end EMSManager
